import Mathlib

/-!
Verification development for the energy-aware streaming session engine of the
ai4all dashboard (React front end).  JavaScript numbers are modelled as
rationals (all arithmetic appearing in the verified code is exact on the
reachable values), `null`/`undefined` as `Option`, and JS truthiness is made
explicit.  The durable key-value store (localStorage) is modelled as an
association list; numeric values are stored directly since the code writes
`String(x)` and reads `Number(raw)`, which round-trips every finite number.
-/

namespace AI4All

/-- Truthiness of a JS `string | null | undefined` value: null, undefined and
the empty string are falsy. -/
def truthyS : Option String → Bool
  | none => false
  | some s => !(s == "")

/-- Truthiness of a JS `number | null | undefined` value: null, undefined and
0 are falsy. -/
def truthyN : Option Nat → Bool
  | none => false
  | some n => !(n == 0)

/-- JS expression a || b on optional strings (empty string counts as unset). -/
def jsOr (a b : Option String) : Option String :=
  match a with
  | some s => if s = "" then b else some s
  | none => b

/-- JS expression s || dflt on a plain string. -/
def jsOrStr (a b : String) : String :=
  if a = "" then b else a

/-- Normalisation x || undefined used when App hands its nullable string state
down to ChatPane as an optional prop. -/
def jsOpt (a : Option String) : Option String :=
  jsOr a none

/-- JS String.prototype.trim: strip leading and trailing whitespace, written
on the character list so that it evaluates by reduction. -/
def jsTrim (s : String) : String :=
  ⟨(((s.data.dropWhile Char.isWhitespace).reverse).dropWhile
      Char.isWhitespace).reverse⟩

/-- Word count of a submitted prompt: trimmed.split(/\s+/).length.  Splitting a
trimmed non-empty string on whitespace runs yields exactly its whitespace
separated words. -/
def countWords (s : String) : Nat :=
  ((s.split (fun c => c.isWhitespace)).filter (fun w => w ≠ "")).length

/-! ## Streaming Response Consumer (api.ts streamChat) -/

/-- Inference metrics carried by the terminal frame of a chat stream
(api.ts InferenceMetrics). -/
structure InferenceMetrics where
  inference_time_ms : ℚ
  energy_wh : ℚ
deriving DecidableEq, Repr

/-- One decoded SSE data payload of the chat stream, after the transport
framing (split on blank lines, data: prefix, JSON.parse) has been undone.
The fields mirror the duck-typed JSON object inspected by streamChat. -/
structure Payload where
  error : Option String := none
  delta : Option String := none
  done : Bool := false
  inference_time_ms : Option ℚ := none
  energy_wh : Option ℚ := none
deriving Repr

/-- Observable outcome of one streamChat call: the onDelta emissions in order,
the onComplete emissions in order, the metrics value that would be returned,
and whether an error payload aborted the stream. -/
structure StreamResult where
  deltas : List String := []
  completions : List InferenceMetrics := []
  metrics : Option InferenceMetrics := none
  failed : Option String := none
deriving DecidableEq, Repr

/-- The payload loop of api.ts streamChat: an error payload throws; a truthy
delta is forwarded to onDelta; a done payload with inference_time_ms defined
builds the metrics record and fires onComplete. -/
def runStream (acc : StreamResult) : List Payload → StreamResult
  | [] => acc
  | p :: rest =>
    if truthyS p.error then { acc with failed := p.error }
    else
      let acc1 := if truthyS p.delta then
          { acc with deltas := acc.deltas ++ [p.delta.getD ""] }
        else acc
      let acc2 := if p.done && p.inference_time_ms.isSome then
          let m : InferenceMetrics :=
            ⟨p.inference_time_ms.getD 0, p.energy_wh.getD 0⟩
          { acc1 with completions := acc1.completions ++ [m], metrics := some m }
        else acc1
      runStream acc2 rest

/-! ## Chat pane (ChatPane.tsx) -/

inductive Role where
  | user
  | bot
deriving DecidableEq, Repr

/-- Transcript message in the shape consumed by ChatHistory: role, markdown
text, and an optional attached metrics record.  ChatPane constructs its
messages as plain { role, text } literals, i.e. with metrics undefined. -/
structure Msg where
  role : Role
  text : String
  metrics : Option InferenceMetrics := none
deriving DecidableEq, Repr

/-- Initial greeting message of ChatPane. -/
def greetingMsg : Msg := { role := .bot, text := "Hi! Ask me anything." }

/-- Guidance message emitted when no chat model is resolved. -/
def guidanceText : String :=
  "I don�t know which chat model to use yet. " ++
  "Open the Models tab and set a Chat model (or override) first."

/-- Apology message substituted on a stream failure. -/
def apologyText : String :=
  "Sorry, something went wrong while generating a response."

/-- Per-prompt metric recorded through onUserPrompt
(StudyControls.tsx PromptMetric). -/
structure PromptMetric where
  ts : Nat
  text : String
  words : Nat
  chars : Nat
deriving DecidableEq, Repr

inductive ThinkingMode where
  | fast
  | deep
deriving DecidableEq, Repr

/-- Arguments of one network submission to the chat endpoint. -/
structure ChatRequest where
  prompt : String
  model : String
  thinkingMode : ThinkingMode
deriving DecidableEq, Repr

/-- Observable outcome of one ChatPane handleSend call. -/
structure SendResult where
  messages : List Msg
  requests : List ChatRequest
  promptMetric : Option PromptMetric
  modelUsed : Option String
deriving DecidableEq, Repr

/-- The onDelta callback body in handleSend: drop a trailing bot message if
present and append the full accumulated text as the new bot tail. -/
def applyDelta (m : List Msg) (acc : String) : List Msg :=
  (match m.getLast? with
    | some last => if last.role = .bot then m.dropLast else m
    | none => m) ++ [{ role := .bot, text := acc }]

/-- Replay of the onDelta callbacks over the emitted deltas, threading the
accumulated text buffer. -/
def runDeltas (m : List Msg) (acc : String) : List String → List Msg × String
  | [] => (m, acc)
  | d :: ds => runDeltas (applyDelta m (acc ++ d)) (acc ++ d) ds

/-- ChatPane activeModel: deep mode prefers the deep preset, fast mode the
fast preset, each falling back to the default chat model prop. -/
def activeModel (mode : ThinkingMode) (modelP fastP deepP : Option String) :
    Option String :=
  match mode with
  | .deep => jsOr deepP modelP
  | .fast => jsOr fastP modelP

/-- ChatPane handleSend, evaluated against a given frame sequence for the
opened stream: empty prompts are dropped; with no resolved model a guidance
message is appended and nothing else happens; otherwise the prompt metric is
emitted, the user message is appended, one request is issued, the deltas are
folded into the transcript, and a failure appends the apology message. -/
def handleSend (msgs : List Msg) (text : String) (active : Option String)
    (mode : ThinkingMode) (now : Nat) (payloads : List Payload) : SendResult :=
  let trimmed := jsTrim text
  if trimmed = "" then ⟨msgs, [], none, none⟩
  else if !truthyS active then
    ⟨msgs ++ [{ role := .bot, text := guidanceText }], [], none, none⟩
  else
    let metric : PromptMetric :=
      ⟨now, text, if trimmed.length ≠ 0 then countWords trimmed else 0,
        text.length⟩
    let msgs1 := msgs ++ [{ role := .user, text := text }]
    let res := runStream {} payloads
    let streamed := (runDeltas msgs1 "" res.deltas).1
    let final := match res.failed with
      | some _ => streamed ++ [{ role := .bot, text := apologyText }]
      | none => streamed
    ⟨final, [⟨text, active.getD "", mode⟩], some metric, active⟩

/-! ## Mode Resolution Registry (App.tsx model resolution) -/

/-- Per-mode backend defaults entry (api.ts ModeInfo). -/
structure ModeInfo where
  default : String
  installed : Bool
  fast : Option String := none
  fast_installed : Option Bool := none
  thinking : Option String := none
  thinking_installed : Option Bool := none
deriving Repr

/-- Backend-declared defaults for the four mode keys (api.ts ModeDefaults). -/
structure ModeDefaults where
  chat : ModeInfo
  vibe_coding : ModeInfo
  image : ModeInfo
  web : ModeInfo
deriving Repr

/-- The persisted per-mode override map; absent entries mean no override. -/
structure ModeOverrides where
  chat : Option String := none
  vibe_coding : Option String := none
  image : Option String := none
  web : Option String := none
deriving Repr

/-- App.tsx chatModeModel: modeOverrides.chat || modeDefaults?.chat?.default. -/
def chatModeModel (ov : ModeOverrides) (md : Option ModeDefaults) :
    Option String :=
  jsOr ov.chat (md.map (fun d => d.chat.default))

/-- Effective model for the general chat mode: App passes chatModeModel and
the fast and deep presets (each normalised by || undefined) to ChatPane,
which applies activeModel for the current thinking mode. -/
def effectiveChatModel (mode : ThinkingMode) (fastModel deepModel : Option String)
    (ov : ModeOverrides) (md : Option ModeDefaults) : Option String :=
  activeModel mode (jsOpt (chatModeModel ov md)) (jsOpt fastModel)
    (jsOpt deepModel)

/-! ## Study Session State Machine and App state (App.tsx) -/

inductive Group where
  | control
  | intervention
deriving DecidableEq, Repr

/-- Study settings (StudyControls.tsx StudySettings); timestamps are
Date.now() values. -/
structure StudySettings where
  participantId : String
  group : Group
  session : Nat
  taskStartedAt : Option Nat := none
  taskEndedAt : Option Nat := none
deriving DecidableEq, Repr

/-- Energy block embedded in a saved study bundle. -/
structure EnergyRecord where
  latestPromptWh : Option ℚ
  sessionTotalWh : Option ℚ
  todayTotalWh : Option ℚ
  session1TotalWh : Option ℚ
deriving DecidableEq, Repr

/-- Session record embedded in a saved study bundle. -/
structure SessionRecord where
  participantId : String
  group : Group
  session : Nat
  taskStartedAt : Option Nat
  taskEndedAt : Option Nat
  energy : EnergyRecord
deriving DecidableEq, Repr

/-- Bundle handed to saveStudySession on task end. -/
structure StudyBundle where
  name : String
  history : List Msg
  metrics : List PromptMetric
  session : SessionRecord
deriving DecidableEq, Repr

/-- Durable key-value store (localStorage); newest binding first. -/
def Store := List (String × ℚ)

/-- Lookup in the durable store. -/
def storeGet (s : Store) (k : String) : Option ℚ :=
  (List.find? (fun p => p.1 == k) s).map (fun p => p.2)

/-- Write-through to the durable store. -/
def storeSet (s : Store) (k : String) (v : ℚ) : Store :=
  (k, v) :: s

/-- One Energy Summary telemetry push (streamPower payload); the handler
applies ?? 0 to every field, so each is modelled as optional. -/
structure EnergySummary where
  latest_prompt_Wh : Option ℚ := none
  session_total_Wh : Option ℚ := none
  today_total_Wh : Option ℚ := none
deriving Repr

/-- Full mutable state owned by the App component, together with the
observable effect logs (saved bundles, backend reset requests). -/
structure AppState where
  study : StudySettings
  promptMetrics : List PromptMetric
  messages : List Msg
  latestPromptWh : Option ℚ
  sessionTotalWh : Option ℚ
  todayTotalWh : Option ℚ
  promptWhHistory : List ℚ
  lastPromptWh : Option ℚ
  kwhUsed : ℚ
  lastPromptEnergyPct : ℚ
  totalEnergyPct : ℚ
  litresWater : ℚ
  s1TotalWh : Option ℚ
  currentModel : Option String
  chatKey : Nat
  store : Store
  savedBundles : List StudyBundle
  resetRequests : List String

/-- App state as mounted with an empty durable store. -/
def initApp : AppState where
  study := { participantId := "", group := .control, session := 1 }
  promptMetrics := []
  messages := []
  latestPromptWh := none
  sessionTotalWh := none
  todayTotalWh := none
  promptWhHistory := []
  lastPromptWh := none
  kwhUsed := 0
  lastPromptEnergyPct := 0
  totalEnergyPct := 0
  litresWater := 0
  s1TotalWh := none
  currentModel := none
  chatKey := 0
  store := []
  savedBundles := []
  resetRequests := []

/-- The setPromptWhHistory updater closure inside the streamPower effect:
admit a reading only when it is positive and differs from the last-seen
reading; on admission evict the oldest entry beyond capacity 2. -/
def admitReading (prev : List ℚ) (prevSeen : Option ℚ) (x : ℚ) : List ℚ :=
  if 0 < x ∧ prevSeen ≠ some x then
    let next := prev ++ [x]
    if 2 < next.length then next.tail else next
  else prev

/-- The streamPower push handler in App.tsx: update the rolling window and the
last-seen ref, overwrite the raw Wh fields, and derive the legacy percentage
metrics against the 1 Wh and 10 Wh baselines. -/
def powerPush (st : AppState) (s : EnergySummary) : AppState :=
  let latestWh := s.latest_prompt_Wh.getD 0
  let sessionWh := s.session_total_Wh.getD 0
  let todayWh := s.today_total_Wh.getD 0
  { st with
    promptWhHistory := admitReading st.promptWhHistory st.lastPromptWh latestWh
    lastPromptWh := some latestWh
    latestPromptWh := some latestWh
    sessionTotalWh := some sessionWh
    todayTotalWh := some todayWh
    kwhUsed := todayWh / 1000
    lastPromptEnergyPct := min 100 (latestWh / 1 * 100)
    totalEnergyPct := min 100 (sessionWh / 10 * 100)
    litresWater := 0 }

/-- Fold a sequence of telemetry pushes through the handler. -/
def processPushes (st : AppState) (l : List EnergySummary) : AppState :=
  l.foldl powerPush st

/-- App.tsx last2AvgWh: arithmetic mean of the rolling window, null when the
window is empty. -/
def last2AvgWh (st : AppState) : Option ℚ :=
  if 0 < st.promptWhHistory.length then
    some ((st.promptWhHistory.foldl (fun a b => a + b) 0) /
      (st.promptWhHistory.length : ℚ))
  else none

/-- Participant-scoped durable key for the session-1 energy snapshot. -/
def s1Key (pid : String) : String :=
  "ai4all.study.s1TotalWh." ++ jsOrStr pid "anon"

/-- Running predicate of StudyControls: start timestamp truthy and end
timestamp falsy. -/
def running (s : StudySettings) : Bool :=
  truthyN s.taskStartedAt && !truthyN s.taskEndedAt

/-- App.tsx handleStartTask. -/
def handleStartTask (now : Nat) (st : AppState) : AppState :=
  { st with
    study := { st.study with taskStartedAt := some now, taskEndedAt := none }
    promptMetrics := [] }

/-- App.tsx handleEndTask: set the end timestamp, snapshot the session-1
cumulative energy under the participant-scoped key when applicable, and save
the full study bundle.  The bundle embeds the pre-update s1TotalWh, as the
React closure reads the value of the current render. -/
def handleEndTask (now : Nat) (st : AppState) : AppState :=
  let snap := st.study.session = 1 ∧ st.sessionTotalWh.isSome
  let store' := if snap then
      storeSet st.store (s1Key st.study.participantId) (st.sessionTotalWh.getD 0)
    else st.store
  let s1' := if snap then st.sessionTotalWh else st.s1TotalWh
  let bundle : StudyBundle :=
    { name := jsTrim (jsOrStr st.study.participantId "anon") ++ "_s" ++
        toString st.study.session
      history := st.messages
      metrics := st.promptMetrics
      session :=
        { participantId := st.study.participantId
          group := st.study.group
          session := st.study.session
          taskStartedAt := st.study.taskStartedAt
          taskEndedAt := some now
          energy :=
            { latestPromptWh := st.latestPromptWh
              sessionTotalWh := st.sessionTotalWh
              todayTotalWh := st.todayTotalWh
              session1TotalWh := st.s1TotalWh } } }
  { st with
    study := { st.study with taskEndedAt := some now }
    store := store'
    s1TotalWh := s1'
    savedBundles := st.savedBundles ++ [bundle] }

/-- App.tsx handleResetAll: fire a backend session reset when a concrete model
is known, clear the task timer but keep participant, group and session, clear
metrics and transcript, and clear all energy display state including the
rolling window. -/
def handleResetAll (st : AppState) : AppState :=
  { st with
    resetRequests := if truthyS st.currentModel then
        st.resetRequests ++ [st.currentModel.getD ""]
      else st.resetRequests
    study := { st.study with taskStartedAt := none, taskEndedAt := none }
    promptMetrics := []
    messages := [greetingMsg]
    latestPromptWh := none
    sessionTotalWh := none
    todayTotalWh := none
    promptWhHistory := []
    lastPromptWh := none
    kwhUsed := 0
    lastPromptEnergyPct := 0
    totalEnergyPct := 0
    litresWater := 0
    chatKey := st.chatKey + 1 }

/-- Start button of StudyControls: disabled while running. -/
def clickStart (now : Nat) (st : AppState) : AppState :=
  if running st.study then st else handleStartTask now st

/-- End button of StudyControls: disabled unless running. -/
def clickEnd (now : Nat) (st : AppState) : AppState :=
  if running st.study then handleEndTask now st else st

/-- Reset button of StudyControls: disabled while running. -/
def clickReset (st : AppState) : AppState :=
  if running st.study then st else handleResetAll st

/-- App.tsx handleStudyChange: adopt the new settings and, when the
participant id changed to a truthy value, look up that participant's
persisted session-1 total. -/
def handleStudyChange (next : StudySettings) (st : AppState) : AppState :=
  let st1 := { st with study := next }
  if next.participantId ≠ "" ∧ next.participantId ≠ st.study.participantId then
    { st1 with
      s1TotalWh := storeGet st.store
        ("ai4all.study.s1TotalWh." ++ next.participantId) }
  else st1

/-- Session-1 reference total as surfaced by StudyControls and the Sidebar:
shown only in session 2 and only when a numeric value is present. -/
def s1ReferenceShown (st : AppState) : Option ℚ :=
  if st.study.session = 2 then st.s1TotalWh else none

/-- Concrete session-1 end state used by witnesses: participant P1 with a
session-cumulative reading of 2.4 Wh. -/
def stP1 : AppState :=
  { initApp with
    study := { participantId := "P1", group := .control, session := 1 }
    sessionTotalWh := some (12/5) }

/-- Concrete later session-2 state for the same browser profile, sharing the
durable store written at the end of session 1. -/
def stP1Later : AppState :=
  { initApp with
    study := { participantId := "", group := .control, session := 2 }
    store := (handleEndTask 10 stP1).store }

/-- Settings change selecting participant P1 for session 2. -/
def nextP1 : StudySettings :=
  { participantId := "P1", group := .control, session := 2 }

/-! ## Rolling window lemmas -/

/-- Invariant of the rolling window maintained under positive pushes: at most
two entries, adjacent entries distinct, and the last-seen ref equal to the
newest entry whenever the window is non-empty. -/
def WindowInv (st : AppState) : Prop :=
  st.promptWhHistory.length ≤ 2 ∧
  List.Chain' (fun a b => a ≠ b) st.promptWhHistory ∧
  (st.promptWhHistory = [] ∨ st.lastPromptWh = st.promptWhHistory.getLast?)

theorem admitReading_length_le (prev : List ℚ) (prevSeen : Option ℚ) (x : ℚ)
    (h : prev.length ≤ 2) : (admitReading prev prevSeen x).length ≤ 2 := by
  simp only [admitReading]
  split
  · split
    · simp only [List.length_tail, List.length_append, List.length_cons,
        List.length_nil]
      omega
    · next hle =>
        simp only [List.length_append, List.length_cons, List.length_nil] at hle ⊢
        omega
  · exact h

theorem admitReading_inv (prev : List ℚ) (prevSeen : Option ℚ) (x : ℚ)
    (hx : 0 < x) (hlen : prev.length ≤ 2)
    (hchain : List.Chain' (fun a b => a ≠ b) prev)
    (hlast : prev = [] ∨ prevSeen = prev.getLast?) :
    List.Chain' (fun a b => a ≠ b) (admitReading prev prevSeen x) ∧
    (admitReading prev prevSeen x = [] ∨
      some x = (admitReading prev prevSeen x).getLast?) := by
  by_cases hne : prevSeen ≠ some x
  · have hcond : 0 < x ∧ prevSeen ≠ some x := ⟨hx, hne⟩
    rcases prev with _ | ⟨a, _ | ⟨b, _ | ⟨c, t⟩⟩⟩
    · simp [admitReading, hcond]
    · have ha : prevSeen = some a := by simpa using hlast
      have hax : a ≠ x := by
        intro h; exact hne (by rw [ha, h])
      simp [admitReading, hcond, hax]
    · have hb : prevSeen = some b := by simpa using hlast
      have hbx : b ≠ x := by
        intro h; exact hne (by rw [hb, h])
      have hab : a ≠ b := by simpa using hchain
      simp [admitReading, hcond, hbx]
    · simp at hlen
  · push_neg at hne
    have hcond : ¬ (0 < x ∧ prevSeen ≠ some x) := by simp [hne]
    have hred : admitReading prev prevSeen x = prev := by
      simp [admitReading, hcond]
    rw [hred]
    refine ⟨hchain, ?_⟩
    rcases hlast with h | h
    · exact Or.inl h
    · exact Or.inr (by rw [← h, hne])

theorem powerPush_WindowInv {st : AppState} {s : EnergySummary}
    (h : WindowInv st) (hx : 0 < s.latest_prompt_Wh.getD 0) :
    WindowInv (powerPush st s) := by
  obtain ⟨h1, h2, h3⟩ := h
  have hlen := admitReading_length_le st.promptWhHistory st.lastPromptWh
    (s.latest_prompt_Wh.getD 0) h1
  have hinv := admitReading_inv st.promptWhHistory st.lastPromptWh
    (s.latest_prompt_Wh.getD 0) hx h1 h2 h3
  refine ⟨by simpa [powerPush] using hlen, by simpa [powerPush] using hinv.1, ?_⟩
  rcases hinv.2 with h | h
  · left; simpa [powerPush] using h
  · right
    show (powerPush st s).lastPromptWh = (powerPush st s).promptWhHistory.getLast?
    simpa [powerPush] using h

theorem processPushes_WindowInv (l : List EnergySummary) (st : AppState)
    (h : WindowInv st) (hpos : ∀ p ∈ l, 0 < p.latest_prompt_Wh.getD 0) :
    WindowInv (processPushes st l) := by
  induction l generalizing st with
  | nil => exact h
  | cons p rest ih =>
      exact ih _ (powerPush_WindowInv h (hpos p (by simp)))
        (fun q hq => hpos q (by simp [hq]))

theorem processPushes_length_le (l : List EnergySummary) (st : AppState)
    (h : st.promptWhHistory.length ≤ 2) :
    (processPushes st l).promptWhHistory.length ≤ 2 := by
  induction l generalizing st with
  | nil => exact h
  | cons p rest ih =>
      exact ih _ (by
        simpa [powerPush] using admitReading_length_le st.promptWhHistory
          st.lastPromptWh (p.latest_prompt_Wh.getD 0) h)

/-- C1 (amended): for every sequence of telemetry pushes the Rolling Window
holds at most 2 entries; and whenever every pushed latest-prompt reading is
positive, no entry equals its immediate predecessor.  (The original claim
asserted the no-adjacent-duplicates part for arbitrary push sequences; a zero
push between two identical positive readings refutes that, see the
counterexample.) -/
theorem rolling_window_capacity_and_distinct (pushes : List EnergySummary) :
    (processPushes initApp pushes).promptWhHistory.length ≤ 2 ∧
    ((∀ p ∈ pushes, 0 < p.latest_prompt_Wh.getD 0) →
      List.Chain' (fun a b => a ≠ b)
        (processPushes initApp pushes).promptWhHistory) := by
  constructor
  · exact processPushes_length_le pushes initApp (by simp [initApp])
  · intro hpos
    exact (processPushes_WindowInv pushes initApp
      ⟨by simp [initApp], by simp [initApp], Or.inl rfl⟩ hpos).2.1

/-- Witness for C1 at a concrete positive push sequence. -/
theorem rolling_window_capacity_and_distinct_witness :
    (processPushes initApp
      [⟨some 1, some 2, some 3⟩, ⟨some 2, none, none⟩]).promptWhHistory.length ≤ 2 ∧
    List.Chain' (fun a b => a ≠ b)
      (processPushes initApp
        [⟨some 1, some 2, some 3⟩, ⟨some 2, none, none⟩]).promptWhHistory :=
  ⟨(rolling_window_capacity_and_distinct _).1,
   (rolling_window_capacity_and_distinct
      [⟨some 1, some 2, some 3⟩, ⟨some 2, none, none⟩]).2 (by decide)⟩

/-- C1 counterexample: pushing latest-prompt readings 1, 0, 1 from the initial
state yields the Rolling Window [1, 1], i.e. two consecutive identical
non-zero readings: the zero push updates the last-seen tracker, so the second
reading of 1 is admitted again. -/
theorem rolling_window_adjacent_duplicate_cex :
    (processPushes initApp
      [⟨some 1, none, none⟩, ⟨some 0, none, none⟩,
        ⟨some 1, none, none⟩]).promptWhHistory = [1, 1] ∧
    ¬ List.Chain' (fun a b => a ≠ b)
        (processPushes initApp
          [⟨some 1, none, none⟩, ⟨some 0, none, none⟩,
            ⟨some 1, none, none⟩]).promptWhHistory := by
  have h : (processPushes initApp
      [⟨some 1, none, none⟩, ⟨some 0, none, none⟩,
        ⟨some 1, none, none⟩]).promptWhHistory = [1, 1] := by decide
  refine ⟨h, ?_⟩
  rw [h]
  simp

/-- C8: a telemetry push whose latest-prompt reading is zero or equal to the
last-seen reading leaves the Rolling Window exactly unchanged, while the
last-seen tracker is still updated to the pushed reading. -/
theorem telemetry_zero_or_repeat_frame (st : AppState) (s : EnergySummary)
    (h : s.latest_prompt_Wh.getD 0 = 0 ∨
      st.lastPromptWh = some (s.latest_prompt_Wh.getD 0)) :
    (powerPush st s).promptWhHistory = st.promptWhHistory ∧
    (powerPush st s).lastPromptWh = some (s.latest_prompt_Wh.getD 0) := by
  have hcond : ¬ (0 < s.latest_prompt_Wh.getD 0 ∧
      st.lastPromptWh ≠ some (s.latest_prompt_Wh.getD 0)) := by
    rcases h with h | h
    · rw [h]; simp
    · rw [h]; simp
  exact ⟨by simp [powerPush, admitReading, hcond], by simp [powerPush]⟩

/-- Witness for C8: a zero push on the initial state. -/
theorem telemetry_zero_or_repeat_frame_witness :
    (powerPush initApp ⟨some 0, none, none⟩).promptWhHistory =
      initApp.promptWhHistory ∧
    (powerPush initApp ⟨some 0, none, none⟩).lastPromptWh = some 0 :=
  telemetry_zero_or_repeat_frame initApp ⟨some 0, none, none⟩ (Or.inl rfl)

/-- C9: from the initial state, the pushes of latest-prompt-Wh readings
0.3, 0.3, 0.5 in order yield the Rolling Window [0.3, 0.5] and a derived
moving average of 0.4. -/
theorem scenario_window_and_average :
    (processPushes initApp
      [⟨some (3/10), none, none⟩, ⟨some (3/10), none, none⟩,
        ⟨some (1/2), none, none⟩]).promptWhHistory = [3/10, 1/2] ∧
    last2AvgWh (processPushes initApp
      [⟨some (3/10), none, none⟩, ⟨some (3/10), none, none⟩,
        ⟨some (1/2), none, none⟩]) = some (2/5) := by
  simp [processPushes, powerPush, admitReading, initApp, last2AvgWh]
  norm_num

/-! ## Legacy percentage metrics -/

/-- C4 counterexample: a telemetry push with negative readings drives both
derived legacy percentages below 0: the code clamps only from above with
Math.min(100, _), so the claimed clamping to [0, 100] fails for negative
input readings. -/
theorem legacy_pct_negative_cex :
    (powerPush initApp ⟨some (-1), some (-1), some 0⟩).lastPromptEnergyPct
      = -100 ∧
    (powerPush initApp ⟨some (-1), some (-1), some 0⟩).totalEnergyPct = -10 ∧
    ¬ (0 ≤ (powerPush initApp
        ⟨some (-1), some (-1), some 0⟩).lastPromptEnergyPct) := by
  refine ⟨?_, ?_, ?_⟩
  · simp [powerPush, initApp, min_def]
  · simp [powerPush, initApp, min_def]
    norm_num
  · simp [powerPush, initApp, min_def]

/-- C4 (amended): on every telemetry push the derived legacy percentages
measure the latest-prompt Wh against the fixed 1 Wh baseline and the
session-cumulative Wh against the fixed 10 Wh baseline, each clamped from
above at 100 (there is no lower clamp); consequently both lie in [0, 100]
for every nonnegative input reading. -/
theorem legacy_pct_baselines (st : AppState) (s : EnergySummary)
    (h1 : 0 ≤ s.latest_prompt_Wh.getD 0) (h2 : 0 ≤ s.session_total_Wh.getD 0) :
    (powerPush st s).lastPromptEnergyPct =
      min 100 (s.latest_prompt_Wh.getD 0 / 1 * 100) ∧
    (powerPush st s).totalEnergyPct =
      min 100 (s.session_total_Wh.getD 0 / 10 * 100) ∧
    0 ≤ (powerPush st s).lastPromptEnergyPct ∧
    (powerPush st s).lastPromptEnergyPct ≤ 100 ∧
    0 ≤ (powerPush st s).totalEnergyPct ∧
    (powerPush st s).totalEnergyPct ≤ 100 := by
  have ha : 0 ≤ s.latest_prompt_Wh.getD 0 / 1 * 100 :=
    mul_nonneg (div_nonneg h1 (by norm_num)) (by norm_num)
  have hb : 0 ≤ s.session_total_Wh.getD 0 / 10 * 100 :=
    mul_nonneg (div_nonneg h2 (by norm_num)) (by norm_num)
  refine ⟨rfl, rfl, ?_, ?_, ?_, ?_⟩
  · exact le_min (by norm_num) ha
  · exact min_le_left _ _
  · exact le_min (by norm_num) hb
  · exact min_le_left _ _

/-- Witness for C4 at a concrete nonnegative push. -/
theorem legacy_pct_baselines_witness :
    (powerPush initApp ⟨some 2, some 20, some 0⟩).lastPromptEnergyPct =
      min 100 ((2 : ℚ) / 1 * 100) ∧
    (powerPush initApp ⟨some 2, some 20, some 0⟩).totalEnergyPct =
      min 100 ((20 : ℚ) / 10 * 100) ∧
    0 ≤ (powerPush initApp ⟨some 2, some 20, some 0⟩).lastPromptEnergyPct ∧
    (powerPush initApp ⟨some 2, some 20, some 0⟩).lastPromptEnergyPct ≤ 100 ∧
    0 ≤ (powerPush initApp ⟨some 2, some 20, some 0⟩).totalEnergyPct ∧
    (powerPush initApp ⟨some 2, some 20, some 0⟩).totalEnergyPct ≤ 100 :=
  legacy_pct_baselines initApp ⟨some 2, some 20, some 0⟩ (by norm_num) (by norm_num)

/-! ## Study session state machine -/

/-- C2: the user-level sequence start, end, reset always returns the Study
Settings to idle (both task timestamps null) with an empty per-prompt metric
list; and the end operation is a rejected no-op, changing nothing at all,
unless the state machine is running. -/
theorem study_start_end_reset (st st₂ : AppState) (n₁ n₂ n₃ : Nat)
    (h₁ : 0 < n₁) (h₂ : 0 < n₂) (h₃ : running st₂.study = false) :
    (clickReset (clickEnd n₂ (clickStart n₁ st))).study.taskStartedAt = none ∧
    (clickReset (clickEnd n₂ (clickStart n₁ st))).study.taskEndedAt = none ∧
    (clickReset (clickEnd n₂ (clickStart n₁ st))).promptMetrics = [] ∧
    clickEnd n₃ st₂ = st₂ := by
  have hne₂ : n₂ ≠ 0 := by omega
  have key : ∀ s : AppState, running s.study = true →
      (clickReset (clickEnd n₂ s)).study.taskStartedAt = none ∧
      (clickReset (clickEnd n₂ s)).study.taskEndedAt = none ∧
      (clickReset (clickEnd n₂ s)).promptMetrics = [] := by
    intro s hs
    have hend : clickEnd n₂ s = handleEndTask n₂ s := by simp [clickEnd, hs]
    have hrun : running (handleEndTask n₂ s).study = false := by
      simp [running, handleEndTask, truthyN, hne₂]
    rw [hend]
    have hres : clickReset (handleEndTask n₂ s) =
        handleResetAll (handleEndTask n₂ s) := by
      simp [clickReset, hrun]
    rw [hres]
    simp [handleResetAll]
  by_cases hr : running st.study = true
  · have h := key st hr
    have hstart : clickStart n₁ st = st := by simp [clickStart, hr]
    rw [hstart]
    exact ⟨h.1, h.2.1, h.2.2, by simp [clickEnd, h₃]⟩
  · have hne₁ : n₁ ≠ 0 := by omega
    have hstart : clickStart n₁ st = handleStartTask n₁ st := by
      simp [clickStart, hr]
    have hrs : running (handleStartTask n₁ st).study = true := by
      simp [running, handleStartTask, truthyN, hne₁]
    have h := key (handleStartTask n₁ st) hrs
    rw [hstart]
    exact ⟨h.1, h.2.1, h.2.2, by simp [clickEnd, h₃]⟩

/-- Witness for C2 at concrete times from the initial state. -/
theorem study_start_end_reset_witness :
    (clickReset (clickEnd 2 (clickStart 1 initApp))).study.taskStartedAt = none ∧
    (clickReset (clickEnd 2 (clickStart 1 initApp))).study.taskEndedAt = none ∧
    (clickReset (clickEnd 2 (clickStart 1 initApp))).promptMetrics = [] ∧
    clickEnd 3 initApp = initApp :=
  study_start_end_reset initApp initApp 1 2 3 (by norm_num) (by norm_num)
    (by decide)

/-- C10: the reset operation sets exactly the two task timestamps of the
Study Settings to null, preserving participant id, group and session, while
clearing the per-prompt metrics, the transcript (back to the greeting), the
energy display state and the Rolling Window. -/
theorem reset_frame_effect (st : AppState) :
    (handleResetAll st).study =
      { st.study with taskStartedAt := none, taskEndedAt := none } ∧
    (handleResetAll st).study.participantId = st.study.participantId ∧
    (handleResetAll st).study.group = st.study.group ∧
    (handleResetAll st).study.session = st.study.session ∧
    (handleResetAll st).promptMetrics = [] ∧
    (handleResetAll st).messages = [greetingMsg] ∧
    (handleResetAll st).latestPromptWh = none ∧
    (handleResetAll st).sessionTotalWh = none ∧
    (handleResetAll st).todayTotalWh = none ∧
    (handleResetAll st).promptWhHistory = [] ∧
    (handleResetAll st).lastPromptWh = none ∧
    (handleResetAll st).kwhUsed = 0 ∧
    (handleResetAll st).lastPromptEnergyPct = 0 ∧
    (handleResetAll st).totalEnergyPct = 0 ∧
    (handleResetAll st).s1TotalWh = st.s1TotalWh := by
  refine ⟨rfl, rfl, rfl, rfl, rfl, rfl, rfl, rfl, rfl, rfl, rfl, rfl, rfl,
    rfl, rfl⟩

/-! ## Session-1 snapshot persistence -/

/-- C5: ending a session-1 task while the session-cumulative reading is a
number persists it under the participant-scoped durable key; a later
participant change to the same id (in a session-2 setting) reports the
stored value as the session-1 reference without any fresh measurement; an
absent stored value yields no reference rather than an error. -/
theorem session1_snapshot_roundtrip (st st₂ : AppState) (next : StudySettings)
    (now : Nat) (v : ℚ)
    (h1 : st.study.session = 1) (h2 : st.sessionTotalWh = some v)
    (h3 : st.study.participantId ≠ "")
    (h4 : st₂.store = (handleEndTask now st).store)
    (h5 : next.participantId = st.study.participantId)
    (h6 : st₂.study.participantId ≠ next.participantId)
    (h7 : next.session = 2) :
    storeGet (handleEndTask now st).store (s1Key st.study.participantId)
      = some v ∧
    (handleStudyChange next st₂).s1TotalWh = some v ∧
    s1ReferenceShown (handleStudyChange next st₂) = some v ∧
    (∀ st₃ next₃, next₃.participantId ≠ "" →
        next₃.participantId ≠ st₃.study.participantId →
        storeGet st₃.store
          ("ai4all.study.s1TotalWh." ++ next₃.participantId) = none →
        (handleStudyChange next₃ st₃).s1TotalWh = none) := by
  have hkey : s1Key st.study.participantId =
      "ai4all.study.s1TotalWh." ++ st.study.participantId := by
    simp [s1Key, jsOrStr, h3]
  have hstore : (handleEndTask now st).store =
      storeSet st.store (s1Key st.study.participantId) v := by
    simp [handleEndTask, h1, h2]
  have hget : storeGet (handleEndTask now st).store
      (s1Key st.study.participantId) = some v := by
    rw [hstore]
    simp [storeGet, storeSet]
  have hcond : next.participantId ≠ "" ∧
      next.participantId ≠ st₂.study.participantId :=
    ⟨by rw [h5]; exact h3, fun h => h6 h.symm⟩
  have hchange : (handleStudyChange next st₂).s1TotalWh =
      storeGet st₂.store ("ai4all.study.s1TotalWh." ++ next.participantId) := by
    simp [handleStudyChange, hcond]
  have hlook : (handleStudyChange next st₂).s1TotalWh = some v := by
    rw [hchange, h4, h5, ← hkey, hget]
  refine ⟨hget, hlook, ?_, ?_⟩
  · have hsess : (handleStudyChange next st₂).study.session = 2 := by
      simp [handleStudyChange, hcond, h7]
    simp [s1ReferenceShown, hsess, hlook]
  · intro st₃ next₃ ha hb hc
    have : (handleStudyChange next₃ st₃).s1TotalWh =
        storeGet st₃.store ("ai4all.study.s1TotalWh." ++ next₃.participantId) := by
      simp [handleStudyChange, ha, hb]
    rw [this, hc]

/-- Witness for C5: participant P1 ends session 1 at 2.4 Wh; a later
session-2 profile selecting P1 reports 2.4 as the session-1 reference. -/
theorem session1_snapshot_roundtrip_witness :
    storeGet (handleEndTask 10 stP1).store (s1Key "P1") = some (12/5) ∧
    (handleStudyChange nextP1 stP1Later).s1TotalWh = some (12/5) ∧
    s1ReferenceShown (handleStudyChange nextP1 stP1Later) = some (12/5) ∧
    (∀ st₃ next₃, next₃.participantId ≠ "" →
        next₃.participantId ≠ st₃.study.participantId →
        storeGet st₃.store
          ("ai4all.study.s1TotalWh." ++ next₃.participantId) = none →
        (handleStudyChange next₃ st₃).s1TotalWh = none) :=
  session1_snapshot_roundtrip stP1 stP1Later nextP1 10 (12/5) rfl rfl
    (by decide) rfl rfl (by decide) rfl

/-! ## Mode resolution -/

/-- C6: for the general chat mode, the deep preset wins under the deep
profile and the fast preset under the fast profile, overriding the generic
chat override and backend default; with the profile preset unset the generic
effective chat model (normalised by || undefined as App passes it down)
applies. -/
theorem chat_profile_preset_precedence (fastM deepM : Option String)
    (ov : ModeOverrides) (md : Option ModeDefaults) (d f : String)
    (hd : d ≠ "") (hf : f ≠ "") :
    effectiveChatModel .deep fastM (some d) ov md = some d ∧
    effectiveChatModel .fast (some f) deepM ov md = some f ∧
    effectiveChatModel .deep fastM none ov md = jsOpt (chatModeModel ov md) ∧
    effectiveChatModel .fast none deepM ov md = jsOpt (chatModeModel ov md) := by
  refine ⟨?_, ?_, ?_, ?_⟩ <;>
    simp [effectiveChatModel, activeModel, jsOpt, jsOr, hd, hf]

/-- Witness for C6 with a generic chat override in place. -/
theorem chat_profile_preset_precedence_witness :
    effectiveChatModel .deep none (some "deep-model")
      { chat := some "generic-model" } none = some "deep-model" ∧
    effectiveChatModel .fast (some "fast-model") none
      { chat := some "generic-model" } none = some "fast-model" ∧
    effectiveChatModel .deep none none { chat := some "generic-model" } none =
      jsOpt (chatModeModel { chat := some "generic-model" } none) ∧
    effectiveChatModel .fast none none { chat := some "generic-model" } none =
      jsOpt (chatModeModel { chat := some "generic-model" } none) :=
  chat_profile_preset_precedence none none { chat := some "generic-model" }
    none "deep-model" "fast-model" (by decide) (by decide)

/-! ## Unresolved-model guard and inference result -/

/-- C7: submitting a non-empty prompt while no effective model is resolved
appends exactly one guidance bot message to the transcript and nothing else:
no network request, no prompt metric, no model-change notification. -/
theorem unresolved_model_guard (msgs : List Msg) (text : String)
    (active : Option String) (mode : ThinkingMode) (now : Nat)
    (payloads : List Payload)
    (h1 : jsTrim text ≠ "") (h2 : truthyS active = false) :
    handleSend msgs text active mode now payloads =
      ⟨msgs ++ [{ role := .bot, text := guidanceText }], [], none, none⟩ := by
  simp [handleSend, h1, h2]

/-- Witness for C7: a prompt sent with no resolved model. -/
theorem unresolved_model_guard_witness :
    handleSend [greetingMsg] "hi" none .fast 0 [] =
      ⟨[greetingMsg] ++ [{ role := .bot, text := guidanceText }], [], none,
        none⟩ :=
  unresolved_model_guard [greetingMsg] "hi" none .fast 0 [] (by decide) rfl

/-- C3 at the failing input: the completed stream produces the Inference
Result exactly once (one onComplete emission, returned metrics), but the
transcript built by the chat pane attaches nothing to the terminal bot
message: its metrics field is empty, since handleSend passes no onComplete
callback and discards the returned metrics. -/
theorem inference_result_not_attached :
    (runStream {}
      [{ delta := some "Hello" },
        { done := true, inference_time_ms := some 100, energy_wh := some 2 }]).completions
      = [⟨100, 2⟩] ∧
    (runStream {}
      [{ delta := some "Hello" },
        { done := true, inference_time_ms := some 100, energy_wh := some 2 }]).metrics
      = some ⟨100, 2⟩ ∧
    (handleSend [greetingMsg] "hi" (some "m") .fast 0
      [{ delta := some "Hello" },
        { done := true, inference_time_ms := some 100, energy_wh := some 2 }]).messages
      = [greetingMsg, { role := .user, text := "hi" },
          { role := .bot, text := "Hello" }] ∧
    ((handleSend [greetingMsg] "hi" (some "m") .fast 0
      [{ delta := some "Hello" },
        { done := true, inference_time_ms := some 100, energy_wh := some 2 }]).messages.getLast?).map
        Msg.metrics = some none := by
  refine ⟨?_, ?_, ?_, ?_⟩ <;>
    simp [runStream, handleSend, runDeltas, applyDelta, truthyS, jsTrim,
      greetingMsg]

end AI4All
